import Mathlib

/-!
Verification of the swim-system-python client library against its
natural-language specification.

The development shallowly embeds the two source files of the repository,
`swimai/client/downlinks/downlinks.py` and `swimai/reacon/parsers.py`, as
executable Lean definitions.  Helper modules of the repository that are not
part of the provided sources (`swimai.structure.structs`,
`swimai.reacon.utils`, the `swimai.recon` emitter, the `swimai.warp`
envelope classes and the `swimai.client.connections` manager) are modelled
from the specification; every such definition carries a doc comment that
starts with `Modelled from the spec:`.

Python exceptions are modelled with an explicit error type and `Except`;
Python's mutable objects are modelled by explicit state passing.  The
recursive-descent parser, whose call graph is cyclic in the source, is
embedded with an explicit fuel parameter; running out of fuel is a distinct
outcome that no theorem below ever reaches.
-/

/-- Python exceptions raised (or raisable) by the embedded code.  `outOfFuel`
is not a Python error: it marks exhaustion of the embedding's recursion
budget and is never produced on the concrete inputs used in the theorems. -/
inductive PyError where
  | indexError
  | attributeError (msg : String)
  | valueError (msg : String)
  | typeError (msg : String)
  | runtimeError (msg : String)
  | exception (msg : String)
  | outOfFuel
deriving DecidableEq

/-- Modelled from the spec: the Recon value tree of the missing
`swimai.structure.structs` module (§3): a Value is `Absent`, `Extant`,
`Text`, `Num`, `Bool` or a `Record` of ordered items, and an item is an
attribute `@name(value)`, a slot `key: value`, or a bare value.  In the
source, `Attr` and `Slot` are `Item`s stored directly inside records, so
they appear here as constructors of the single type.  `text none` is a
`Text` object wrapping the host value `None`, which
`ReconStructureParser.create_ident` can produce. -/
inductive Value where
  | absent
  | extant
  | text (s : Option String)
  | num (n : Int)
  | bool (b : Bool)
  | attr (key : String) (value : Value)
  | slot (key : Value) (value : Value)
  | record (items : List Value)

/-- Modelled from the spec: `Text.get_from` of the missing structs module
wraps a host string (or the host `None`) as a `Text` value. -/
def Text.get_from (s : Option String) : Value := Value.text s

/-- Modelled from the spec: `Bool.get_from` of the missing structs module. -/
def Bool.get_from (b : Bool) : Value := Value.bool b

/-- Modelled from the spec: identifier characters (§4.1): identifiers begin
with a letter or underscore (`ReconUtils.is_ident_start_char` of the missing
`swimai.reacon.utils` module). -/
def ReconUtils.is_ident_start_char (c : Char) : Bool :=
  c.isAlpha || c = '_'

/-- Modelled from the spec: identifier continuation characters (§4.1):
letters, digits, underscores, `-` and `.` (`ReconUtils.is_ident_char`). -/
def ReconUtils.is_ident_char (c : Char) : Bool :=
  c.isAlpha || c.isDigit || c = '_' || c = '-' || c = '.'

/-- State of `InputMessage` (`parsers.py`): the raw message string and the
current index.  The Python object is mutated in place; here every operation
returns the updated state. -/
structure InputMessage where
  message : List Char
  index : Nat
deriving DecidableEq

/-- Embeds `InputMessage.head`: `return self.message[self.index]`.  The read
has no bounds check, so past the end it raises `IndexError`. -/
def InputMessage.head (m : InputMessage) : Except PyError Char :=
  match m.message.get? m.index with
  | some c => Except.ok c
  | none => Except.error PyError.indexError

/-- Embeds `InputMessage.step`: increments the index and returns
`self.head()` on the new index (which can raise `IndexError`). -/
def InputMessage.step (m : InputMessage) : InputMessage × Except PyError Char :=
  let m' : InputMessage := { m with index := m.index + 1 }
  (m', m'.head)

/-- Embeds `InputMessage.strip`: replaces the message with
`self.message.strip()` (leading and trailing whitespace removed); the index
is left unchanged. -/
def InputMessage.strip (m : InputMessage) : InputMessage :=
  { m with message := ((m.message.dropWhile Char.isWhitespace).reverse.dropWhile
      Char.isWhitespace).reverse }

/-- Builds the `InputMessage` for a string, as `ReconParser.parse_block_string`
does with `InputMessage(recon_string)`. -/
def InputMessage.ofString (s : String) : InputMessage :=
  { message := s.data, index := 0 }

/-- Result of one embedded parser function.  The Python functions can return
a `Value`, the host value `None` (most operator parsers fall off the end of
the function body), or — in `AttrExpressionParser.parse` — a record builder
object. -/
inductive POut where
  | pyNone
  | val (v : Value)
  | recordBuilder (items : List Value)

/-- Modelled from the spec: a `ValueBuilder` (§3) accumulates items; adding
the host value `None` or a builder object (which the incomplete operator
parsers can return) is outside the spec and is modelled as a no-op; no
theorem below exercises that case. -/
def ValueBuilder.add (b : List Value) (x : POut) : List Value :=
  match x with
  | POut.val v => b ++ [v]
  | _ => b

/-- Modelled from the spec: `ValueBuilder.bind` (§3) returns a `Record` when
the builder holds more than one item or holds attributes, otherwise the
single contained value (`Absent` when empty). -/
def ValueBuilder.bind (b : List Value) : Value :=
  match b with
  | [] => Value.absent
  | [Value.attr k v] => Value.record [Value.attr k v]
  | [v] => v
  | items => Value.record items

/-- Embeds `ReconStructureParser.create_ident`.  The argument is the
`output` accumulated by `IdentParser.parse`: the host value `None` or a host
string — never an instance of the structs `Text` class.  The source's
`isinstance(value, Text)` test is therefore false on every actual call, which
makes the `true`/`false` reserved-word branches unreachable. -/
def isinstance_Text (_ : Option String) : Bool := false

/-- Embeds the body of `ReconStructureParser.create_ident`: the reserved-word
comparison runs only under `isinstance(value, Text)`; otherwise the function
returns `Text.get_from(value)`. -/
def ReconStructureParser.create_ident (value : Option String) : Value :=
  if isinstance_Text value then
    if value = some "true" then Bool.get_from true
    else if value = some "false" then Bool.get_from false
    else Text.get_from value
  else Text.get_from value

/-- Embeds the inner `while` loop of `IdentParser.parse`: starting from the
position of the last consumed character, `char = message.step()` then the
loop keeps consuming while `is_ident_char(char)`.  `step` past the end of
the message raises `IndexError`, which propagates. -/
def IdentParser.loop : Nat → InputMessage → String → Except PyError (String × InputMessage)
  | 0, _, _ => Except.error PyError.outOfFuel
  | fuel + 1, m, output =>
    let (m', r) := m.step
    match r with
    | Except.error e => Except.error e
    | Except.ok char =>
      if ReconUtils.is_ident_char char then
        IdentParser.loop fuel m' (output.push char)
      else
        Except.ok (output, m')

/-- Embeds `IdentParser.parse`: reads the head character (raising on empty
input), and when it starts an identifier accumulates identifier characters,
stepping past the end without a bounds check; finally calls
`create_ident(output)` (with `output = None` when the head character does
not start an identifier). -/
def IdentParser.parse (fuel : Nat) (m : InputMessage) : Except PyError (Value × InputMessage) :=
  match m.head with
  | Except.error e => Except.error e
  | Except.ok char =>
    if ReconUtils.is_ident_start_char char then
      match IdentParser.loop fuel m (String.singleton char) with
      | Except.error e => Except.error e
      | Except.ok (output, m') =>
        Except.ok (ReconStructureParser.create_ident (some output), m')
    else
      Except.ok (ReconStructureParser.create_ident none, m)

/-- Modelled from the spec: `ReconStructureParser.create_attr` wraps
`Attr.of(key, value)` (§3).  The key is the `Text` produced by `parse_ident`;
`AttrParser` passes the host value `None` as the value when no argument list
follows (and `BlockParser.parse` always returns `None` for a parsed argument
block); the structs behaviour for a `None` value is not specified and is
modelled as storing `Extant`, and a key that is not a proper `Text`
identifier (never produced by the reachable call sites below) is modelled as
a `TypeError`. -/
def ReconStructureParser.create_attr (key : Option Value) (value : POut) :
    Except PyError Value :=
  match key with
  | some (Value.text (some s)) =>
    match value with
    | POut.val v => Except.ok (Value.attr s v)
    | _ => Except.ok (Value.attr s Value.extant)
  | _ => Except.error (PyError.typeError "Attr key must be a Text identifier")

mutual

/-- Embeds `BlockParser.parse` (reached from `ReconParser.parse_block` /
`BlockParser.parse_block`): strips the message, creates a value builder that
is never used again, runs `parser.parse_block_expression(message)` — the
operator-parser chain below — and falls off the end of the function body,
returning the host value `None`. -/
def BlockParser.parse : Nat → InputMessage → Except PyError (POut × InputMessage)
  | 0, _ => Except.error PyError.outOfFuel
  | fuel + 1, m =>
    let m1 := m.strip
    match LambdaFuncParser.parse fuel m1 none with
    | Except.error e => Except.error e
    | Except.ok (_, m2) => Except.ok (POut.pyNone, m2)

/-- Embeds `LambdaFuncParser.parse` (via `parse_block_expression` /
`parse_lambda_func`): runs `parse_conditional_operator` and returns `None`. -/
def LambdaFuncParser.parse : Nat → InputMessage → Option (List Value) →
    Except PyError (POut × InputMessage)
  | 0, _, _ => Except.error PyError.outOfFuel
  | fuel + 1, m, builder =>
    match ConditionalOperatorParser.parse fuel m builder with
    | Except.error e => Except.error e
    | Except.ok (_, m1) => Except.ok (POut.pyNone, m1)

/-- Embeds `ConditionalOperatorParser.parse`: runs `parse_or_operator` and
returns `None`. -/
def ConditionalOperatorParser.parse : Nat → InputMessage → Option (List Value) →
    Except PyError (POut × InputMessage)
  | 0, _, _ => Except.error PyError.outOfFuel
  | fuel + 1, m, builder =>
    match OrOperatorParser.parse fuel m builder with
    | Except.error e => Except.error e
    | Except.ok (_, m1) => Except.ok (POut.pyNone, m1)

/-- Embeds `OrOperatorParser.parse`: runs `parse_and_operator` and returns
`None`. -/
def OrOperatorParser.parse : Nat → InputMessage → Option (List Value) →
    Except PyError (POut × InputMessage)
  | 0, _, _ => Except.error PyError.outOfFuel
  | fuel + 1, m, builder =>
    match AndOperatorParser.parse fuel m builder with
    | Except.error e => Except.error e
    | Except.ok (_, m1) => Except.ok (POut.pyNone, m1)

/-- Embeds `AndOperatorParser.parse`: runs `parse_bitwise_or_operator` and
returns `None`. -/
def AndOperatorParser.parse : Nat → InputMessage → Option (List Value) →
    Except PyError (POut × InputMessage)
  | 0, _, _ => Except.error PyError.outOfFuel
  | fuel + 1, m, builder =>
    match BitwiseOrOperatorParser.parse fuel m builder with
    | Except.error e => Except.error e
    | Except.ok (_, m1) => Except.ok (POut.pyNone, m1)

/-- Embeds `BitwiseOrOperatorParser.parse`: runs
`parse_bitwise_xor_operator` and returns `None`. -/
def BitwiseOrOperatorParser.parse : Nat → InputMessage → Option (List Value) →
    Except PyError (POut × InputMessage)
  | 0, _, _ => Except.error PyError.outOfFuel
  | fuel + 1, m, builder =>
    match BitwiseXorOperatorParser.parse fuel m builder with
    | Except.error e => Except.error e
    | Except.ok (_, m1) => Except.ok (POut.pyNone, m1)

/-- Embeds `BitwiseXorOperatorParser.parse`: runs
`parse_bitwise_and_operator` and returns `None`. -/
def BitwiseXorOperatorParser.parse : Nat → InputMessage → Option (List Value) →
    Except PyError (POut × InputMessage)
  | 0, _, _ => Except.error PyError.outOfFuel
  | fuel + 1, m, builder =>
    match BitwiseAndOperator.parse fuel m builder with
    | Except.error e => Except.error e
    | Except.ok (_, m1) => Except.ok (POut.pyNone, m1)

/-- Embeds `BitwiseAndOperator.parse`: runs `parse_comparison_operator` and
returns `None`. -/
def BitwiseAndOperator.parse : Nat → InputMessage → Option (List Value) →
    Except PyError (POut × InputMessage)
  | 0, _, _ => Except.error PyError.outOfFuel
  | fuel + 1, m, builder =>
    match ComparisonOperatorParser.parse fuel m builder with
    | Except.error e => Except.error e
    | Except.ok (_, m1) => Except.ok (POut.pyNone, m1)

/-- Embeds `ComparisonOperatorParser.parse`: runs `parse_attr_expression`
and returns `None`. -/
def ComparisonOperatorParser.parse : Nat → InputMessage → Option (List Value) →
    Except PyError (POut × InputMessage)
  | 0, _, _ => Except.error PyError.outOfFuel
  | fuel + 1, m, builder =>
    match AttrExpressionParser.parse fuel m builder with
    | Except.error e => Except.error e
    | Except.ok (_, m1) => Except.ok (POut.pyNone, m1)

/-- Embeds `AttrExpressionParser.parse`: reads the head character (raising on
empty input); on `@` parses an attribute, puts it in a fresh record builder
and returns the builder object; on an identifier start character parses an
additive expression, adds it to the builder (created when absent) and returns
`builder.bind()`; otherwise falls off the end, returning `None`. -/
def AttrExpressionParser.parse : Nat → InputMessage → Option (List Value) →
    Except PyError (POut × InputMessage)
  | 0, _, _ => Except.error PyError.outOfFuel
  | fuel + 1, m, builder =>
    match m.head with
    | Except.error e => Except.error e
    | Except.ok char =>
      if char = '@' then
        match AttrParser.parse fuel m with
        | Except.error e => Except.error e
        | Except.ok (field_output, m1) => Except.ok (POut.recordBuilder [field_output], m1)
      else if ReconUtils.is_ident_start_char char then
        match AdditiveOperatorParser.parse fuel m builder with
        | Except.error e => Except.error e
        | Except.ok (value_output, m1) =>
          let b := ValueBuilder.add (builder.getD []) value_output
          Except.ok (POut.val (ValueBuilder.bind b), m1)
      else
        Except.ok (POut.pyNone, m)

/-- Embeds `AttrParser.parse` (via `parse_attr`): on `@`, steps (the step
itself reads the next index and can raise `IndexError`), parses the key
identifier, then when `(` follows parses either an empty argument list or a
block (whose result, the host `None`, becomes the attribute value); calls
`create_attr` with whatever was collected.  Called with a head other than
`@` it would call `create_attr(None, None)`. -/
def AttrParser.parse : Nat → InputMessage → Except PyError (Value × InputMessage)
  | 0, _ => Except.error PyError.outOfFuel
  | fuel + 1, m =>
    match m.head with
    | Except.error e => Except.error e
    | Except.ok c =>
      if c = '@' then
        let (m1, r1) := m.step
        match r1 with
        | Except.error e => Except.error e
        | Except.ok _ =>
          match IdentParser.parse fuel m1 with
          | Except.error e => Except.error e
          | Except.ok (key_output, m2) =>
            match m2.head with
            | Except.error e => Except.error e
            | Except.ok c2 =>
              if c2 = '(' then
                let (m3, r3) := m2.step
                match r3 with
                | Except.error e => Except.error e
                | Except.ok _ =>
                  match m3.head with
                  | Except.error e => Except.error e
                  | Except.ok c3 =>
                    if c3 = ')' then
                      match ReconStructureParser.create_attr (some key_output) (POut.val Value.extant) with
                      | Except.error e => Except.error e
                      | Except.ok a => Except.ok (a, m3)
                    else
                      match BlockParser.parse fuel m3 with
                      | Except.error e => Except.error e
                      | Except.ok (value_output, m4) =>
                        match ReconStructureParser.create_attr (some key_output) value_output with
                        | Except.error e => Except.error e
                        | Except.ok a => Except.ok (a, m4)
              else
                match ReconStructureParser.create_attr (some key_output) POut.pyNone with
                | Except.error e => Except.error e
                | Except.ok a => Except.ok (a, m2)
      else
        match ReconStructureParser.create_attr none POut.pyNone with
        | Except.error e => Except.error e
        | Except.ok a => Except.ok (a, m)

/-- Embeds `AdditiveOperatorParser.parse`: parses a multiplicative
expression, then reads the next character without a bounds check; on `+` or
`-` it falls through (returning `None`), otherwise returns the left-hand
output. -/
def AdditiveOperatorParser.parse : Nat → InputMessage → Option (List Value) →
    Except PyError (POut × InputMessage)
  | 0, _, _ => Except.error PyError.outOfFuel
  | fuel + 1, m, builder =>
    match MultiplicativeOperatorParser.parse fuel m builder with
    | Except.error e => Except.error e
    | Except.ok (lhs_output, m1) =>
      match m1.head with
      | Except.error e => Except.error e
      | Except.ok char =>
        if char = '+' then Except.ok (POut.pyNone, m1)
        else if char = '-' then Except.ok (POut.pyNone, m1)
        else Except.ok (lhs_output, m1)

/-- Embeds `MultiplicativeOperatorParser.parse`: parses a prefix expression,
then reads the next character without a bounds check; on `*`, `/` or `%` it
falls through (returning `None`), otherwise returns the left-hand output. -/
def MultiplicativeOperatorParser.parse : Nat → InputMessage → Option (List Value) →
    Except PyError (POut × InputMessage)
  | 0, _, _ => Except.error PyError.outOfFuel
  | fuel + 1, m, builder =>
    match PrefixOperatorParser.parse fuel m builder with
    | Except.error e => Except.error e
    | Except.ok (lhs_output, m1) =>
      match m1.head with
      | Except.error e => Except.error e
      | Except.ok char =>
        if char = '*' then Except.ok (POut.pyNone, m1)
        else if char = '/' then Except.ok (POut.pyNone, m1)
        else if char = '%' then Except.ok (POut.pyNone, m1)
        else Except.ok (lhs_output, m1)

/-- Embeds `PrefixOperatorParser.parse`: reads the head character (raising
on empty input); on `!`, `~`, `-` or `+` it falls through (returning
`None`), otherwise delegates to `parse_invoke_operator`. -/
def PrefixOperatorParser.parse : Nat → InputMessage → Option (List Value) →
    Except PyError (POut × InputMessage)
  | 0, _, _ => Except.error PyError.outOfFuel
  | fuel + 1, m, builder =>
    match m.head with
    | Except.error e => Except.error e
    | Except.ok char =>
      if char = '!' then Except.ok (POut.pyNone, m)
      else if char = '~' then Except.ok (POut.pyNone, m)
      else if char = '-' then Except.ok (POut.pyNone, m)
      else if char = '+' then Except.ok (POut.pyNone, m)
      else InvokeOperatorParser.parse fuel m builder

/-- Embeds `InvokeOperatorParser.parse`: parses a primary expression, then
reads the next character without a bounds check; on `(` it falls through
(returning `None`), otherwise returns the parsed expression. -/
def InvokeOperatorParser.parse : Nat → InputMessage → Option (List Value) →
    Except PyError (POut × InputMessage)
  | 0, _, _ => Except.error PyError.outOfFuel
  | fuel + 1, m, builder =>
    match PrimaryParser.parse fuel m builder with
    | Except.error e => Except.error e
    | Except.ok (expr_output, m1) =>
      match m1.head with
      | Except.error e => Except.error e
      | Except.ok char =>
        if char = '(' then Except.ok (POut.pyNone, m1)
        else Except.ok (expr_output, m1)

/-- Embeds `PrimaryParser.parse`: reads the head character; on `(` it falls
through (returning `None`), otherwise returns `parse_literal`'s output. -/
def PrimaryParser.parse : Nat → InputMessage → Option (List Value) →
    Except PyError (POut × InputMessage)
  | 0, _, _ => Except.error PyError.outOfFuel
  | fuel + 1, m, builder =>
    match m.head with
    | Except.error e => Except.error e
    | Except.ok char =>
      if char = '(' then Except.ok (POut.pyNone, m)
      else LiteralParser.parse fuel m builder

/-- Embeds `LiteralParser.parse`: reads the head character; `(`, `{` and `[`
all fall through (returning `None`); an identifier start character parses an
identifier, adds it to the builder (created when absent) and returns
`builder.bind()`; any other character falls off the end, returning `None`. -/
def LiteralParser.parse : Nat → InputMessage → Option (List Value) →
    Except PyError (POut × InputMessage)
  | 0, _, _ => Except.error PyError.outOfFuel
  | fuel + 1, m, builder =>
    match m.head with
    | Except.error e => Except.error e
    | Except.ok char =>
      if char = '(' then Except.ok (POut.pyNone, m)
      else if char = '{' then Except.ok (POut.pyNone, m)
      else if char = '[' then Except.ok (POut.pyNone, m)
      else if ReconUtils.is_ident_start_char char then
        match IdentParser.parse fuel m with
        | Except.error e => Except.error e
        | Except.ok (value_output, m1) =>
          let b := ValueBuilder.add (builder.getD []) (POut.val value_output)
          Except.ok (POut.val (ValueBuilder.bind b), m1)
      else
        Except.ok (POut.pyNone, m)

end

/-- Embeds `ReconParser.parse_block_string`: wraps the string in an
`InputMessage` and runs `parse_block`, i.e. `BlockParser.parse`. -/
def ReconParser.parse_block_string (fuel : Nat) (recon_string : String) :
    Except PyError (POut × InputMessage) :=
  BlockParser.parse fuel (InputMessage.ofString recon_string)

/-- Modelled from the spec: `Value.tag` of the missing structs module: the
key of a record's head attribute, used by the envelope decoder and by the
map downlink to recognise `@update` / `@remove` / `@laneNotFound` bodies
(§4.4, §4.6); any other value has no tag. -/
def Value.tag : Value → Option String
  | Value.record (Value.attr k _ :: _) => some k
  | _ => none

/-- Modelled from the spec: `Record.get_head` of the missing structs module
returns the record's first item; on anything else the attribute access
fails. -/
def Value.get_head : Value → Except PyError Value
  | Value.record (i :: _) => Except.ok i
  | _ => Except.error (PyError.attributeError "get_head")

/-- Modelled from the spec: the `.value` attribute of an `Attr` or `Slot`
item.  (A structs `Text` also has a `.value` attribute — its host string —
but the map-event code below only reaches this accessor on attributes and
slots of well-formed `@update`/`@remove` bodies, so other items are modelled
as an attribute failure.) -/
def Value.value_attr : Value → Except PyError Value
  | Value.attr _ v => Except.ok v
  | Value.slot _ v => Except.ok v
  | _ => Except.error (PyError.attributeError "value")

/-- Modelled from the spec: `Record.get_body` of the missing structs module
splits the items after the head attribute off as the body (§4.6), bound as a
single value the way `ValueBuilder.bind` binds items. -/
def Value.get_body : Value → Value
  | Value.record (_ :: rest) => ValueBuilder.bind rest
  | _ => Value.absent

/-- Modelled from the spec: the universe of host Python objects that flow
through callbacks and replicas: host primitives produced by the record
converter, raw structs `Value` objects, instances of registered classes
(their field assignment abstracted as the decoded record), and the host
`None`. -/
inductive PyObj where
  | str (s : String)
  | int (n : Int)
  | boolean (b : Bool)
  | pyNone
  | value (v : Value)
  | classInstance (name : String) (fields : Value)

/-- Modelled from the spec: `RecordConverter.record_to_object` (§4.1):
primitives decode to the corresponding host primitives; a record whose head
attribute names a registered class instantiates that class; in `strict` mode
an unknown head-attribute name fails, in non-strict mode the record stays a
plain record.  Items that are not standalone payloads (bare attributes and
slots) pass through as raw objects. -/
def RecordConverter.record_to_object (record : Value) (classes : List String)
    (strict : Bool) : Except PyError PyObj :=
  match record with
  | Value.text (some s) => Except.ok (PyObj.str s)
  | Value.text none => Except.ok PyObj.pyNone
  | Value.num n => Except.ok (PyObj.int n)
  | Value.bool b => Except.ok (PyObj.boolean b)
  | Value.record items =>
    match Value.tag (Value.record items) with
    | some name =>
      if classes.contains name then
        Except.ok (PyObj.classInstance name (Value.record items))
      else if strict then
        Except.error (PyError.exception ("Missing class for " ++ name))
      else
        Except.ok (PyObj.value (Value.record items))
    | none => Except.ok (PyObj.value (Value.record items))
  | v => Except.ok (PyObj.value v)

/-- Checks the identifier grammar of §4.1 for a whole string, used by the
emitter to decide between a bare identifier and a quoted string. -/
def Recon.is_ident (s : String) : Bool :=
  match s.data with
  | [] => false
  | c :: rest => ReconUtils.is_ident_start_char c && rest.all ReconUtils.is_ident_char

/-- Escapes the characters of a quoted Recon string (`\"` and `\\`). -/
def Recon.escape (s : String) : String :=
  { data := s.data.foldr
      (fun c acc => if c = '"' || c = '\\' then '\\' :: c :: acc else c :: acc) [] }

mutual

/-- Modelled from the spec: `Recon.to_string`, the emitter (§4.1): `Text`
emits as a bare identifier when it matches the identifier grammar and is not
a reserved word, otherwise as a quoted string; numbers and booleans emit
their literals; `Absent` and `Extant` emit nothing; a record emits its
attributes followed by its comma-separated items.  The map downlink uses
this serialization as the canonical key string (§4.4). -/
def Recon.to_string : Value → String
  | Value.absent => ""
  | Value.extant => ""
  | Value.text none => ""
  | Value.text (some s) =>
    if Recon.is_ident s && s ≠ "true" && s ≠ "false" then s
    else "\"" ++ Recon.escape s ++ "\""
  | Value.num n => toString n
  | Value.bool b => if b then "true" else "false"
  | Value.attr k Value.extant => "@" ++ k
  | Value.attr k v => "@" ++ k ++ "(" ++ Recon.to_string v ++ ")"
  | Value.slot k v => Recon.to_string k ++ ":" ++ Recon.to_string v
  | Value.record items => Recon.items_string items

/-- Emits a record's item list: attributes join the following item without a
separator, other consecutive items are comma-separated. -/
def Recon.items_string : List Value → String
  | [] => ""
  | [i] => Recon.to_string i
  | i :: rest =>
    Recon.to_string i ++
      (match i with | Value.attr _ _ => "" | _ => ",") ++ Recon.items_string rest

end

/-- Modelled from the spec: a WARP envelope (§4.6): a tag out of
`link, sync, synced, linked, unlinked, event, command`, the route and the
body value. -/
structure Envelope where
  tag : String
  node_uri : String
  lane_uri : String
  body : Value

/-- Modelled from the spec: `Envelope.to_recon` of the missing `swimai.warp`
module: every envelope has the canonical skeleton
`@tag(node: <node>, lane: <lane>)` followed by the body (§4.6). -/
def Envelope.to_recon (e : Envelope) : String :=
  "@" ++ e.tag ++ "(node:" ++ Recon.to_string (Value.text (some e.node_uri)) ++
    ",lane:" ++ Recon.to_string (Value.text (some e.lane_uri)) ++ ")" ++
    Recon.to_string e.body

/-- Kind of a downlink model: the source's subclasses `EventDownlinkModel`,
`ValueDownlinkModel` and `MapDownlinkModel`. -/
inductive DownlinkKind where
  | event
  | value
  | map
deriving DecidableEq

/-- State of a downlink model (`DownlinkModel` and its subclasses): the
lane, the `linked` and `synced` asyncio events (a set flag each), the value
replica of a value downlink (initially `Value.absent()`), the map replica of
a map downlink — insertion-ordered, keyed by the canonical Recon key string
and storing the decoded `(key, value)` tuple — and the connection
reference.  The three source classes are merged into one record tagged with
`kind`; each kind leaves the other kinds' fields untouched. -/
structure ModelState where
  kind : DownlinkKind
  lane_uri : String
  linked : Bool
  synced : Bool
  value : PyObj
  map : List (String × (PyObj × PyObj))
  connection : Option Nat

/-- A user callback invocation produced by the downlink manager's fan-out,
tagged with the id of the receiving view. -/
inductive Call where
  | onEvent (event : PyObj)
  | didSet (current old : PyObj)
  | didUpdate (key value old : PyObj)
  | didRemove (key old : PyObj)

/-- Modelled from the spec: the `DownlinkManager` of the missing
`swimai.client.connections` module (§4.3): it owns one model, holds the set
of attached views (by id), the merged `registered_classes` (modelled by
class name) and the `strict` flag. -/
structure DownlinkManagerState where
  registered_classes : List String
  strict : Bool
  views : List Nat
  downlink_model : ModelState

/-- Modelled from the spec: `DownlinkManager.is_open` is true once the model
has received `linked` (§4.3). -/
def DownlinkManager.is_open (m : DownlinkManagerState) : Bool :=
  m.downlink_model.linked

/-- Modelled from the spec: `DownlinkManager.subscribers_on_event` fans the
event out to every attached view, one scheduled task per view (§4.3). -/
def DownlinkManager.subscribers_on_event (m : DownlinkManagerState)
    (event : PyObj) : List (Nat × Call) :=
  m.views.map (fun w => (w, Call.onEvent event))

/-- Modelled from the spec: `DownlinkManager.subscribers_did_set` fan-out
(§4.3). -/
def DownlinkManager.subscribers_did_set (m : DownlinkManagerState)
    (current old : PyObj) : List (Nat × Call) :=
  m.views.map (fun w => (w, Call.didSet current old))

/-- Modelled from the spec: `DownlinkManager.subscribers_did_update` fan-out
(§4.3). -/
def DownlinkManager.subscribers_did_update (m : DownlinkManagerState)
    (key value old : PyObj) : List (Nat × Call) :=
  m.views.map (fun w => (w, Call.didUpdate key value old))

/-- Modelled from the spec: `DownlinkManager.subscribers_did_remove` fan-out
(§4.3). -/
def DownlinkManager.subscribers_did_remove (m : DownlinkManagerState)
    (key old : PyObj) : List (Nat × Call) :=
  m.views.map (fun w => (w, Call.didRemove key old))

/-- Python `dict.get(key, default)` on an insertion-ordered association
list, without the default: `none` when the key is missing. -/
def dict_get {α : Type} : List (String × α) → String → Option α
  | [], _ => none
  | (k, a) :: rest, key => if k = key then some a else dict_get rest key

/-- Python `d[key] = value` on an insertion-ordered association list: an
existing key keeps its position, a new key is appended. -/
def dict_set_item {α : Type} : List (String × α) → String → α → List (String × α)
  | [], key, a => [(key, a)]
  | (k, b) :: rest, key, a =>
    if k = key then (k, a) :: rest else (k, b) :: dict_set_item rest key a

/-- Python `dict.pop(key, default)` on an insertion-ordered association
list, without the default: the removed binding (when present) and the
remaining list. -/
def dict_pop {α : Type} : List (String × α) → String → Option α × List (String × α)
  | [], _ => (none, [])
  | (k, a) :: rest, key =>
    if k = key then (some a, rest)
    else
      let (r, rest') := dict_pop rest key
      (r, (k, a) :: rest')

/-- Embeds the test `message.body == Absent.get_absent()`: equality with the
`Absent` singleton holds exactly for `Absent`. -/
def Value.is_absent : Value → Bool
  | Value.absent => true
  | _ => false

/-- Embeds `isinstance(message.body, (Text, Num, Bool))`. -/
def Value.is_primitive : Value → Bool
  | Value.text _ => true
  | Value.num _ => true
  | Value.bool _ => true
  | _ => false

/-- Embeds the expression `message.body.get_head().value.get_head().value`
used by both `MapDownlinkModel.__receive_update` and
`MapDownlinkModel.__receive_remove`: the key `K` inside the head attribute
`@update(key: K)` / `@remove(key: K)`. -/
def map_event_key (body : Value) : Except PyError Value := do
  let h1 ← body.get_head
  let v1 ← h1.value_attr
  let h2 ← v1.get_head
  h2.value_attr

/-- Embeds `MapDownlinkModel.__receive_update`: decodes the key and the
payload, computes the canonical Recon key string, takes
`self.map.get(recon_key, [Value.absent()])[0]` as the old value — index `0`
of the stored `(key, value)` tuple when the key is present, of the one-item
default list `[Absent]` otherwise — stores the new `(key, value)` tuple and
fans out `did_update`. -/
def MapDownlinkModel.receive_update (s : ModelState)
    (manager : DownlinkManagerState) (message : Envelope) :
    Except PyError (ModelState × List (Nat × Call)) := do
  let key_value ← map_event_key message.body
  let key ← RecordConverter.record_to_object key_value
    manager.registered_classes manager.strict
  let value ← RecordConverter.record_to_object message.body.get_body
    manager.registered_classes manager.strict
  let recon_key := Recon.to_string key_value
  let old_value :=
    match dict_get s.map recon_key with
    | some pair => pair.1
    | none => PyObj.value Value.absent
  let s' := { s with map := dict_set_item s.map recon_key (key, value) }
  Except.ok (s', DownlinkManager.subscribers_did_update manager key value old_value)

/-- Embeds `MapDownlinkModel.__receive_remove`: decodes the key, computes
the canonical Recon key string, takes
`self.map.pop(recon_key, [Value.absent()])[0]` as the old value — index `0`
of the popped `(key, value)` tuple when the key was present, of the default
list `[Absent]` otherwise — and fans out `did_remove`. -/
def MapDownlinkModel.receive_remove (s : ModelState)
    (manager : DownlinkManagerState) (message : Envelope) :
    Except PyError (ModelState × List (Nat × Call)) := do
  let key_value ← map_event_key message.body
  let key ← RecordConverter.record_to_object key_value
    manager.registered_classes manager.strict
  let recon_key := Recon.to_string key_value
  let (popped, map') := dict_pop s.map recon_key
  let old_value :=
    match popped with
    | some pair => pair.1
    | none => PyObj.value Value.absent
  Except.ok ({ s with map := map' },
    DownlinkManager.subscribers_did_remove manager key old_value)

/-- Embeds `MapDownlinkModel.receive_event`: two successive `if` tests on
`message.body.tag` select `__receive_update` or `__receive_remove` (the tag
cannot match both); any other tag is ignored. -/
def MapDownlinkModel.receive_event (s : ModelState)
    (manager : DownlinkManagerState) (message : Envelope) :
    Except PyError (ModelState × List (Nat × Call)) :=
  if message.body.tag = some "update" then
    MapDownlinkModel.receive_update s manager message
  else if message.body.tag = some "remove" then
    MapDownlinkModel.receive_remove s manager message
  else
    Except.ok (s, [])

/-- Embeds `EventDownlinkModel.receive_event`: an absent body delivers the
`Absent` value object, a primitive body is delivered as the `Value` object
itself, anything else goes through the record converter; the result is
fanned out through `subscribers_on_event`. -/
def EventDownlinkModel.receive_event (s : ModelState)
    (manager : DownlinkManagerState) (message : Envelope) :
    Except PyError (ModelState × List (Nat × Call)) := do
  let event ←
    if message.body.is_absent then
      Except.ok (PyObj.value Value.absent)
    else if message.body.is_primitive then
      Except.ok (PyObj.value message.body)
    else
      RecordConverter.record_to_object message.body
        manager.registered_classes manager.strict
  Except.ok (s, DownlinkManager.subscribers_on_event manager event)

/-- Embeds `ValueDownlinkModel.__set_value`: remembers the old value,
decodes the body the same way the event downlink does, stores it as the new
replica value and fans out `did_set(new, old)`. -/
def ValueDownlinkModel.set_value (s : ModelState)
    (manager : DownlinkManagerState) (message : Envelope) :
    Except PyError (ModelState × List (Nat × Call)) := do
  let old_value := s.value
  let new_value ←
    if message.body.is_absent then
      Except.ok (PyObj.value Value.absent)
    else if message.body.is_primitive then
      Except.ok (PyObj.value message.body)
    else
      RecordConverter.record_to_object message.body
        manager.registered_classes manager.strict
  Except.ok ({ s with value := new_value },
    DownlinkManager.subscribers_did_set manager new_value old_value)

/-- Embeds `ValueDownlinkModel.receive_event`, which delegates to
`__set_value`. -/
def ValueDownlinkModel.receive_event (s : ModelState)
    (manager : DownlinkManagerState) (message : Envelope) :
    Except PyError (ModelState × List (Nat × Call)) :=
  ValueDownlinkModel.set_value s manager message

/-- Embeds `DownlinkModel.receive_linked`: sets the `linked` event. -/
def DownlinkModel.receive_linked (s : ModelState) : ModelState :=
  { s with linked := true }

/-- Embeds `receive_synced` of the three model subclasses:
`EventDownlinkModel.receive_synced` raises
`TypeError('Event downlink does not support synced responses!')`;
`ValueDownlinkModel.receive_synced` and `MapDownlinkModel.receive_synced`
set the `synced` event. -/
def DownlinkModel.receive_synced (s : ModelState) :
    Except PyError (ModelState × List (Nat × Call)) :=
  match s.kind with
  | DownlinkKind.event =>
    Except.error (PyError.typeError "Event downlink does not support synced responses!")
  | _ => Except.ok ({ s with synced := true }, [])

/-- Embeds `DownlinkModel.receive_unlinked`: when the body tag is
`laneNotFound` it raises
`Exception(f'Lane "{self.lane_uri}" was not found on the remote agent!')`;
for any other unlinked envelope the method body does nothing at all. -/
def DownlinkModel.receive_unlinked (s : ModelState) (message : Envelope) :
    Except PyError (ModelState × List (Nat × Call)) :=
  if message.body.tag = some "laneNotFound" then
    Except.error (PyError.exception
      ("Lane \"" ++ s.lane_uri ++ "\" was not found on the remote agent!"))
  else
    Except.ok (s, [])

/-- Embeds the kind dispatch of the abstract `DownlinkModel.receive_event`
to the three subclasses' implementations. -/
def DownlinkModel.receive_event (s : ModelState)
    (manager : DownlinkManagerState) (message : Envelope) :
    Except PyError (ModelState × List (Nat × Call)) :=
  match s.kind with
  | DownlinkKind.event => EventDownlinkModel.receive_event s manager message
  | DownlinkKind.value => ValueDownlinkModel.receive_event s manager message
  | DownlinkKind.map => MapDownlinkModel.receive_event s manager message

/-- Embeds `DownlinkModel.receive_message`: dispatches on the envelope tag
to `receive_linked`, `receive_synced`, `receive_event` or
`receive_unlinked`; any other tag falls through and is ignored.  The
manager argument stands for `self.downlink_manager`. -/
def DownlinkModel.receive_message (s : ModelState)
    (manager : DownlinkManagerState) (message : Envelope) :
    Except PyError (ModelState × List (Nat × Call)) :=
  if message.tag = "linked" then
    Except.ok (DownlinkModel.receive_linked s, [])
  else if message.tag = "synced" then
    DownlinkModel.receive_synced s
  else if message.tag = "event" then
    DownlinkModel.receive_event s manager message
  else if message.tag = "unlinked" then
    DownlinkModel.receive_unlinked s message
  else
    Except.ok (s, [])

/-- State of a `DownlinkView` (the base class): the open flag, the private
`self.__strict` flag and `self.__registered_classes` (by class name), the
attached manager (`self.downlink_manager`, `None` before `register_manager`)
and the model reference (`self.model`). -/
structure DownlinkViewState where
  is_open : Bool
  strict_private : Bool
  registered_private : List String
  downlink_manager : Option DownlinkManagerState
  model : Option ModelState

/-- Embeds the `DownlinkView.registered_classes` property: the manager's
merged registry when attached, the view's private registry otherwise. -/
def DownlinkView.registered_classes (v : DownlinkViewState) : List String :=
  match v.downlink_manager with
  | none => v.registered_private
  | some m => m.registered_classes

/-- Embeds the `DownlinkView.strict` property getter: the manager's value
when attached, the view's private `self.__strict` otherwise. -/
def DownlinkView.strict (v : DownlinkViewState) : Bool :=
  match v.downlink_manager with
  | none => v.strict_private
  | some m => m.strict

/-- Embeds the `DownlinkView.strict` property setter: when attached it
assigns `self.downlink_manager.strict = self.__strict` — the stale private
flag, not the assigned argument — and only stores the argument into
`self.__strict` when detached. -/
def DownlinkView.set_strict (v : DownlinkViewState) (strict : Bool) : DownlinkViewState :=
  match v.downlink_manager with
  | some m => { v with downlink_manager := some { m with strict := v.strict_private } }
  | none => { v with strict_private := strict }

/-- Python `dict.update` on the registry modelled by class names: existing
names keep their position, new names are appended. -/
def dict_update_names (d : List String) (new : List String) : List String :=
  d ++ new.filter (fun n => !(d.contains n))

/-- Embeds `DownlinkView.assign_manager`: stores `manager.downlink_model` as
`self.model`, merges the view's `registered_classes` into the manager's,
overwrites the manager's `strict` with the view's `strict` property (read
while still detached) and finally attaches the manager. -/
def DownlinkView.assign_manager (v : DownlinkViewState)
    (manager : DownlinkManagerState) : DownlinkViewState × DownlinkManagerState :=
  let merged := dict_update_names manager.registered_classes
    (DownlinkView.registered_classes v)
  let manager1 := { manager with registered_classes := merged }
  let manager2 := { manager1 with strict := DownlinkView.strict v }
  ({ v with model := some manager.downlink_model, downlink_manager := some manager2 },
    manager2)

/-- State of a `ValueDownlinkView`: the base view plus the presence of a
`did_set` callback and the `initialised` event. -/
structure ValueDownlinkViewState extends DownlinkViewState where
  did_set_callback : Bool
  initialised : Bool

/-- State of a `MapDownlinkView`: the base view plus the presence of the
`did_update` / `did_remove` callbacks and the `initialised` event. -/
structure MapDownlinkViewState extends DownlinkViewState where
  did_update_callback : Bool
  did_remove_callback : Bool
  initialised : Bool

/-- Embeds `MapDownlinkView.execute_did_update`: schedules the user callback
as a task when one is registered. -/
def MapDownlinkView.execute_did_update (v : MapDownlinkViewState)
    (key value old : PyObj) : List Call :=
  if v.did_update_callback then [Call.didUpdate key value old] else []

/-- Embeds `ValueDownlinkView.execute_did_set`: schedules the user callback
as a task when one is registered. -/
def ValueDownlinkView.execute_did_set (v : ValueDownlinkViewState)
    (current old : PyObj) : List Call :=
  if v.did_set_callback then [Call.didSet current old] else []

/-- Embeds the tuple unpacking of `for key, value in self.model.map`: a
Python dict iterates its keys, so each canonical-Recon key string is
unpacked into the two loop variables; that succeeds only for a string of
length exactly two (one character per variable) and raises `ValueError`
otherwise. -/
def iter_unpack_pair (s : String) : Except PyError (String × String) :=
  match s.data with
  | [a, b] => Except.ok (String.singleton a, String.singleton b)
  | _ :: _ :: _ :: _ =>
    Except.error (PyError.valueError "too many values to unpack (expected 2)")
  | _ => Except.error (PyError.valueError "not enough values to unpack (expected 2)")

/-- Embeds the late-join replay loop of `MapDownlinkView.register_manager`:
`for key, value in self.model.map: await self.execute_did_update(key, value,
Value.absent())`, iterating the dict's keys in insertion order. -/
def MapDownlinkView.replay_loop (v : MapDownlinkViewState) :
    List String → Except PyError (List Call)
  | [] => Except.ok []
  | k :: rest => do
    let (key, value) ← iter_unpack_pair k
    let calls ← MapDownlinkView.replay_loop v rest
    Except.ok (MapDownlinkView.execute_did_update v
      (PyObj.str key) (PyObj.str value) (PyObj.value Value.absent) ++ calls)

/-- Embeds `MapDownlinkView.register_manager`: assigns the manager; when the
manager is already open, replays the model's map to this view with
`for key, value in self.model.map` — iterating the dict's canonical key
strings and unpacking each string into the two loop variables — firing
`did_update(key, value, Absent)`; finally sets `initialised`. -/
def MapDownlinkView.register_manager (v : MapDownlinkViewState)
    (manager : DownlinkManagerState) :
    Except PyError (MapDownlinkViewState × DownlinkManagerState × List Call) := do
  let (v1, manager1) := DownlinkView.assign_manager v.toDownlinkViewState manager
  let v2 := { v with toDownlinkViewState := v1 }
  let calls ←
    if DownlinkManager.is_open manager1 then
      match v1.model with
      | some mdl => MapDownlinkView.replay_loop v2 (mdl.map.map Prod.fst)
      | none => Except.error (PyError.attributeError "model")
    else
      Except.ok []
  Except.ok ({ v2 with initialised := true }, manager1, calls)

/-- Embeds `ValueDownlinkView.register_manager`: assigns the manager; when
the manager is already open, fires `did_set(self.model.value, Absent)` on
this view; finally sets `initialised`. -/
def ValueDownlinkView.register_manager (v : ValueDownlinkViewState)
    (manager : DownlinkManagerState) :
    Except PyError (ValueDownlinkViewState × DownlinkManagerState × List Call) := do
  let (v1, manager1) := DownlinkView.assign_manager v.toDownlinkViewState manager
  let v2 := { v with toDownlinkViewState := v1 }
  let calls ←
    if DownlinkManager.is_open manager1 then
      match v1.model with
      | some mdl =>
        Except.ok (ValueDownlinkView.execute_did_set v2 mdl.value (PyObj.value Value.absent))
      | none => Except.error (PyError.attributeError "model")
    else
      Except.ok []
  Except.ok ({ v2 with initialised := true }, manager1, calls)

/-- A task scheduled on the client runtime by a view operation; the
asynchronous bridge (`task.result()`) is modelled as an opaque handle. -/
inductive TaskDesc where
  | getValue (key : Option PyObj)
  | sendMessage (value : PyObj)
  | putMessage (key value : PyObj)
  | removeMessage (key : PyObj)

/-- Result of a view read: an immediate object, a raw stored tuple, all
stored tuples, or a blocking task result. -/
inductive CallResult where
  | obj (o : PyObj)
  | pair (p : PyObj × PyObj)
  | seq (l : List (PyObj × PyObj))
  | taskResult (t : TaskDesc)

/-- Embeds the `ValueDownlinkView.value` property: `Absent` without a model,
otherwise the model's replica value. -/
def ValueDownlinkView.value (v : ValueDownlinkViewState) : PyObj :=
  match v.model with
  | none => PyObj.value Value.absent
  | some mdl => mdl.value

/-- Embeds `ValueDownlinkView.get`: before `open()` it raises
`RuntimeError('Link is not open!')` and schedules nothing; when open it
either returns the current replica value immediately or schedules
`__get_value` and blocks on the task result. -/
def ValueDownlinkView.get (v : ValueDownlinkViewState) (wait_sync : Bool) :
    Except PyError (CallResult × List TaskDesc) :=
  if v.is_open then
    if wait_sync then
      Except.ok (CallResult.taskResult (TaskDesc.getValue none), [TaskDesc.getValue none])
    else
      Except.ok (CallResult.obj (ValueDownlinkView.value v), [])
  else
    Except.error (PyError.runtimeError "Link is not open!")

/-- Embeds `ValueDownlinkView.set`: before `open()` it raises
`RuntimeError('Link is not open!')` and schedules nothing; when open it
schedules `send_message` (and with `blocking` also blocks on the task
result). -/
def ValueDownlinkView.set (v : ValueDownlinkViewState) (value : PyObj)
    (_blocking : Bool) : Except PyError (List TaskDesc) :=
  if v.is_open then
    Except.ok [TaskDesc.sendMessage value]
  else
    Except.error (PyError.runtimeError "Link is not open!")

/-- Embeds the `MapDownlinkView.map` method: without a model it returns
`Absent`; with a model, a `None` key returns all stored `(key, value)`
tuples (`dict.values()`), otherwise `self.model.map.get(key,
Value.absent())` — the raw stored tuple; the dict is keyed by canonical
Recon strings, so only a host-string key can match. -/
def MapDownlinkView.map (v : MapDownlinkViewState) (key : Option PyObj) : CallResult :=
  match v.model with
  | none => CallResult.obj (PyObj.value Value.absent)
  | some mdl =>
    match key with
    | none => CallResult.seq (mdl.map.map Prod.snd)
    | some k =>
      let found :=
        match k with
        | PyObj.str s => dict_get mdl.map s
        | _ => none
      match found with
      | some pair => CallResult.pair pair
      | none => CallResult.obj (PyObj.value Value.absent)

/-- Embeds `MapDownlinkView.get`: before `open()` it raises
`RuntimeError('Link is not open!')` and schedules nothing; when open it
either reads through the `map` method immediately or schedules `__get_value`
and blocks on the task result. -/
def MapDownlinkView.get (v : MapDownlinkViewState) (key : Option PyObj)
    (wait_sync : Bool) : Except PyError (CallResult × List TaskDesc) :=
  if v.is_open then
    if wait_sync then
      Except.ok (CallResult.taskResult (TaskDesc.getValue key), [TaskDesc.getValue key])
    else
      Except.ok (MapDownlinkView.map v key, [])
  else
    Except.error (PyError.runtimeError "Link is not open!")

/-- Embeds `MapDownlinkView.put`: before `open()` it raises
`RuntimeError('Link is not open!')` and schedules nothing; when open it
schedules `put_message`. -/
def MapDownlinkView.put (v : MapDownlinkViewState) (key value : PyObj)
    (_blocking : Bool) : Except PyError (List TaskDesc) :=
  if v.is_open then
    Except.ok [TaskDesc.putMessage key value]
  else
    Except.error (PyError.runtimeError "Link is not open!")

/-- Embeds `MapDownlinkView.remove`: before `open()` it raises
`RuntimeError('Link is not open!')` and schedules nothing; when open it
schedules `remove_message`. -/
def MapDownlinkView.remove (v : MapDownlinkViewState) (key : PyObj)
    (_blocking : Bool) : Except PyError (List TaskDesc) :=
  if v.is_open then
    Except.ok [TaskDesc.removeMessage key]
  else
    Except.error (PyError.runtimeError "Link is not open!")

/-- One step of the coroutine body of `ValueDownlinkModel.send_message` /
`MapDownlinkModel.send_message`. -/
inductive SendStep where
  | awaitLinked
  | write (frame : String)

/-- Embeds `ValueDownlinkModel.send_message`: `await self.linked.wait()`
followed by `await self.connection.send_message(await message.to_recon())`,
as the explicit step sequence of the coroutine body. -/
def ValueDownlinkModel.send_message (message : Envelope) : List SendStep :=
  [SendStep.awaitLinked, SendStep.write (Envelope.to_recon message)]

/-- Embeds `MapDownlinkModel.send_message`, whose body is identical to the
value downlink's. -/
def MapDownlinkModel.send_message (message : Envelope) : List SendStep :=
  [SendStep.awaitLinked, SendStep.write (Envelope.to_recon message)]

/-- Configuration of the send coroutine interleaved with the rest of the
client: whether the model's `linked` event is set, the frames already
enqueued on the connection's writer, and the remaining coroutine steps. -/
structure SendConfig where
  linked : Bool
  wire : List String
  prog : List SendStep

/-- Transition relation of the send system: the environment can set the
`linked` event at any time (`receive_linked`; the event is never cleared);
the coroutine's `await self.linked.wait()` completes only when `linked` is
set; a `write` step appends its frame to the writer queue. -/
inductive SendTrans : SendConfig → SendConfig → Prop where
  | set_linked (l : Bool) (w : List String) (p : List SendStep) :
      SendTrans ⟨l, w, p⟩ ⟨true, w, p⟩
  | exec_await (w : List String) (p : List SendStep) :
      SendTrans ⟨true, w, SendStep.awaitLinked :: p⟩ ⟨true, w, p⟩
  | exec_write (l : Bool) (w : List String) (f : String) (p : List SendStep) :
      SendTrans ⟨l, w, SendStep.write f :: p⟩ ⟨l, w ++ [f], p⟩

/-- Reachability in the send system: the reflexive-transitive closure of
`SendTrans`. -/
def SendReach (a b : SendConfig) : Prop := Relation.ReflTransGen SendTrans a b

/-- Map-downlink model whose replica holds the decoded entry
`("k", "v")` under its canonical Recon key string `k`, linked and synced,
holding a connection reference. -/
def mapModelK : ModelState :=
  { kind := DownlinkKind.map, lane_uri := "tbl", linked := true, synced := true,
    value := PyObj.value Value.absent,
    map := [("k", (PyObj.str "k", PyObj.str "v"))],
    connection := some 0 }

/-- Manager owning `mapModelK` with a single subscriber view `0`. -/
def managerOneView : DownlinkManagerState :=
  { registered_classes := [], strict := false, views := [0],
    downlink_model := mapModelK }

/-- Body of the wire frame `@event(...)@remove(key:"k")`. -/
def removeBodyK : Value :=
  Value.record [Value.attr "remove"
    (Value.record [Value.slot (Value.text (some "key")) (Value.text (some "k"))])]

/-- Body of the wire frame `@event(...)@update(key:"k")"w"`. -/
def updateBodyK : Value :=
  Value.record [Value.attr "update"
    (Value.record [Value.slot (Value.text (some "key")) (Value.text (some "k"))]),
    Value.text (some "w")]

/-- The `@event` envelope carrying `removeBodyK`. -/
def removeEnvK : Envelope :=
  { tag := "event", node_uri := "/h", lane_uri := "tbl", body := removeBodyK }

/-- The `@event` envelope carrying `updateBodyK`. -/
def updateEnvK : Envelope :=
  { tag := "event", node_uri := "/h", lane_uri := "tbl", body := updateBodyK }

/-- An `unlinked` envelope whose body tag is not `laneNotFound`. -/
def otherUnlinkedEnv : Envelope :=
  { tag := "unlinked", node_uri := "/h", lane_uri := "tbl",
    body := Value.record [Value.attr "badReason" Value.extant] }

/-- The `unlinked` envelope `@unlinked(...)@laneNotFound`. -/
def laneNotFoundEnv : Envelope :=
  { tag := "unlinked", node_uri := "/h", lane_uri := "tbl",
    body := Value.record [Value.attr "laneNotFound" Value.extant] }

/-- An open map-downlink view with a `did_update` callback, not yet
attached to a manager. -/
def mapViewOpen : MapDownlinkViewState :=
  { is_open := true, strict_private := false, registered_private := [],
    downlink_manager := none, model := none,
    did_update_callback := true, did_remove_callback := true, initialised := false }

/-- A manager whose `strict` flag is `true`, for the strict-flag fixtures. -/
def strictManager : DownlinkManagerState :=
  { registered_classes := [], strict := true, views := [0], downlink_model := mapModelK }

/-- A view attached to `strictManager` whose private `__strict` flag is
`false`. -/
def attachedView : DownlinkViewState :=
  { is_open := true, strict_private := false, registered_private := [],
    downlink_manager := some strictManager, model := some mapModelK }

/-- An event-downlink model. -/
def eventModel : ModelState :=
  { kind := DownlinkKind.event, lane_uri := "lights", linked := true, synced := false,
    value := PyObj.value Value.absent, map := [], connection := some 0 }

/-- Manager owning `eventModel` with a single subscriber view `0`. -/
def eventManager : DownlinkManagerState :=
  { registered_classes := [], strict := false, views := [0], downlink_model := eventModel }

/-- A `synced` envelope. -/
def syncedEnv : Envelope :=
  { tag := "synced", node_uri := "/h", lane_uri := "lights", body := Value.absent }

/-- A value-downlink view on which `open()` has not been called. -/
def closedValueView : ValueDownlinkViewState :=
  { is_open := false, strict_private := false, registered_private := [],
    downlink_manager := none, model := none, did_set_callback := false, initialised := false }

/-- The same value-downlink view after `open()`. -/
def openValueView : ValueDownlinkViewState :=
  { closedValueView with is_open := true }

/-- A map-downlink view on which `open()` has not been called. -/
def closedMapView : MapDownlinkViewState :=
  { is_open := false, strict_private := false, registered_private := [],
    downlink_manager := none, model := none,
    did_update_callback := false, did_remove_callback := false, initialised := false }

/-- The same map-downlink view after `open()`. -/
def openMapView : MapDownlinkViewState :=
  { closedMapView with is_open := true }

/-- A `@command` envelope used by the send-path fixtures. -/
def sendMsg0 : Envelope :=
  { tag := "command", node_uri := "/a", lane_uri := "b", body := Value.text (some "hi") }

/-- Initial send configuration: `linked` not yet set, empty wire, the full
`send_message` coroutine pending. -/
def sendInit0 : SendConfig :=
  { linked := false, wire := [], prog := ValueDownlinkModel.send_message sendMsg0 }

/-- Final send configuration: `linked` set, the frame written, coroutine
done. -/
def sendFinal0 : SendConfig :=
  { linked := true, wire := [Envelope.to_recon sendMsg0], prog := [] }

/-- Claim C3: the specification states that parsing the bare identifier
`true` yields `Bool(true)`, `false` yields `Bool(false)`, and any other
identifier yields `Text`.  The code disagrees: `IdentParser.parse` hands
`create_ident` a host string, never a structs `Text` instance, so the
`isinstance(value, Text)` guard is false and the reserved-word branches are
dead — `create_ident` returns `Text` for `true` and `false` as well.
Evaluated on the identifier `true` (followed by a non-identifier character
so that the scan terminates), parsing yields `Text("true")`, not
`Bool(true)`. -/
theorem claim_C3_reserved_identifiers_parse_as_text :
    ReconStructureParser.create_ident (some "true") = Value.text (some "true") ∧
    ReconStructureParser.create_ident (some "false") = Value.text (some "false") ∧
    ReconStructureParser.create_ident (some "true") ≠ Bool.get_from true ∧
    IdentParser.parse 100 (InputMessage.ofString "true ") =
      Except.ok (Value.text (some "true"), { message := "true ".data, index := 4 }) :=
  ⟨rfl, rfl, by simp [ReconStructureParser.create_ident, isinstance_Text,
    Text.get_from, Bool.get_from], rfl⟩

/-- Claim C9: the Recon parser is not total: on the message `true` — a
single bare identifier with no trailing character — `InputMessage.head`
reads past the end of the string without a bounds check while
`IdentParser.parse` keeps stepping, so the whole parse raises `IndexError`;
the same happens at the identifier parser itself. -/
theorem claim_C9_parse_bare_identifier_raises_index_error :
    ReconParser.parse_block_string 100 "true" = Except.error PyError.indexError ∧
    IdentParser.parse 100 (InputMessage.ofString "true") = Except.error PyError.indexError :=
  ⟨rfl, rfl⟩

/-- Claim C1: evaluated at a replica holding the decoded entry
`("k", "v")` under canonical key `k`, receiving `@event ... @remove(key:"k")`
fires `did_remove` with old value `"k"` — index `0` of the stored
`(key, value)` tuple, i.e. the decoded KEY — and receiving
`@event ... @update(key:"k") "w"` for the already-present key fires
`did_update` with old value `"k"` as well, where the claim requires the
stored value `"v"` in both cases. -/
theorem claim_C1_map_callbacks_deliver_stored_key_as_old_value :
    DownlinkModel.receive_message mapModelK managerOneView removeEnvK =
      Except.ok ({ mapModelK with map := [] },
        [(0, Call.didRemove (PyObj.str "k") (PyObj.str "k"))]) ∧
    DownlinkModel.receive_message mapModelK managerOneView updateEnvK =
      Except.ok ({ mapModelK with map := [("k", (PyObj.str "k", PyObj.str "w"))] },
        [(0, Call.didUpdate (PyObj.str "k") (PyObj.str "w") (PyObj.str "k"))]) :=
  ⟨rfl, rfl⟩

/-- Claim C2: evaluated at an open manager whose model map holds one entry
`("k", "v")` under canonical key `k`, attaching a view via
`MapDownlinkView.register_manager` raises `ValueError`: the replay loop
`for key, value in self.model.map` iterates the dict's key strings and the
one-character key string `k` cannot be unpacked into two loop variables, so
the replay does not complete and no `did_update(k, v, Absent)` is fired. -/
theorem claim_C2_late_join_replay_raises_value_error :
    MapDownlinkView.register_manager mapViewOpen managerOneView =
      Except.error (PyError.valueError "not enough values to unpack (expected 2)") :=
  rfl

/-- Claim C4: evaluated at a view attached to a manager with `strict =
true` while the view's private flag is `false`: reading `strict` returns
the manager's value (first conjunct, the getter half of the claim holds),
but after assigning `strict = true` a read returns `false` — the setter
writes the stale private flag into the manager and discards the assigned
value — where the claim requires `true`; on a detached view the assignment
behaves as claimed (third conjunct). -/
theorem claim_C4_strict_setter_discards_assigned_value :
    DownlinkView.strict attachedView = true ∧
    DownlinkView.strict (DownlinkView.set_strict attachedView true) = false ∧
    DownlinkView.strict
      (DownlinkView.set_strict { attachedView with downlink_manager := none } true) = true :=
  ⟨rfl, rfl, rfl⟩

/-- Claim C5 counterexample: at a concrete model holding a connection
reference, receiving an `unlinked` envelope whose body tag is `badReason`
neither releases the connection reference nor notifies any subscriber —
`receive_unlinked`'s body does nothing for a non-`laneNotFound` tag — so the
claimed transition (release the connection reference and notify the
subscribers) does not happen. -/
theorem claim_C5_counterexample :
    ¬ ∃ r, DownlinkModel.receive_message mapModelK managerOneView otherUnlinkedEnv =
        Except.ok r ∧ r.1.connection = none ∧ r.2 ≠ [] := by
  rintro ⟨r, h1, h2, h3⟩
  have heval : DownlinkModel.receive_message mapModelK managerOneView otherUnlinkedEnv =
      Except.ok (mapModelK, []) := rfl
  rw [heval] at h1
  injection h1 with h
  rw [← h] at h3
  exact h3 rfl

/-- Claim C5 as amended: for every downlink model in any state, receiving an
`unlinked` envelope whose body tag is not `laneNotFound` is silently
ignored: the model state — its connection reference included — is unchanged
and no subscriber callback is produced. -/
theorem claim_C5_unlinked_other_is_ignored (s : ModelState)
    (manager : DownlinkManagerState) (message : Envelope)
    (h1 : message.tag = "unlinked") (h2 : message.body.tag ≠ some "laneNotFound") :
    DownlinkModel.receive_message s manager message = Except.ok (s, []) := by
  simp [DownlinkModel.receive_message, h1, DownlinkModel.receive_unlinked, h2]

/-- Claim C5 witness: the amended theorem applied at the concrete model and
envelope of the counterexample. -/
theorem claim_C5_unlinked_other_is_ignored_witness :
    DownlinkModel.receive_message mapModelK managerOneView otherUnlinkedEnv =
      Except.ok (mapModelK, []) :=
  claim_C5_unlinked_other_is_ignored mapModelK managerOneView otherUnlinkedEnv rfl
    (by decide)

/-- Claim C6: for every downlink model in any state, receiving an `unlinked`
envelope whose body tag is `laneNotFound` raises an exception naming the
lane; `receive_message` therefore errors — no state transition and no
further processing happen — which makes the failure terminal for the
downlink. -/
theorem claim_C6_lane_not_found_is_terminal_error (s : ModelState)
    (manager : DownlinkManagerState) (message : Envelope)
    (h1 : message.tag = "unlinked") (h2 : message.body.tag = some "laneNotFound") :
    DownlinkModel.receive_message s manager message =
      Except.error (PyError.exception
        ("Lane \"" ++ s.lane_uri ++ "\" was not found on the remote agent!")) := by
  simp [DownlinkModel.receive_message, h1, DownlinkModel.receive_unlinked, h2]

/-- Claim C6 witness: the theorem applied at a concrete model and the
`@unlinked(...)@laneNotFound` envelope. -/
theorem claim_C6_lane_not_found_is_terminal_error_witness :
    DownlinkModel.receive_message mapModelK managerOneView laneNotFoundEnv =
      Except.error (PyError.exception
        ("Lane \"" ++ mapModelK.lane_uri ++ "\" was not found on the remote agent!")) :=
  claim_C6_lane_not_found_is_terminal_error mapModelK managerOneView laneNotFoundEnv
    rfl rfl

/-- Claim C10: for every event-downlink model in any state, receiving a
`synced` envelope is not silently ignored: `receive_message` dispatches it
to `receive_synced`, and the event kind's implementation raises
`TypeError('Event downlink does not support synced responses!')`. -/
theorem claim_C10_event_downlink_synced_raises_type_error (s : ModelState)
    (manager : DownlinkManagerState) (message : Envelope)
    (h1 : s.kind = DownlinkKind.event) (h2 : message.tag = "synced") :
    DownlinkModel.receive_message s manager message =
      Except.error (PyError.typeError "Event downlink does not support synced responses!") := by
  simp [DownlinkModel.receive_message, h2, DownlinkModel.receive_synced, h1]

/-- Claim C10 witness: the theorem applied at a concrete event model and a
concrete `synced` envelope. -/
theorem claim_C10_event_downlink_synced_raises_type_error_witness :
    DownlinkModel.receive_message eventModel eventManager syncedEnv =
      Except.error (PyError.typeError "Event downlink does not support synced responses!") :=
  claim_C10_event_downlink_synced_raises_type_error eventModel eventManager syncedEnv
    rfl rfl

/-- Helper for claim C7: every configuration reachable from an initial send
configuration is in one of three shapes — coroutine not yet past the await,
wire empty; await completed (hence `linked` set), wire still empty; frame
written, `linked` still set. -/
theorem send_message_reachable_inv (message : Envelope) (l0 : Bool) (c : SendConfig)
    (h : SendReach { linked := l0, wire := [], prog := ValueDownlinkModel.send_message message } c) :
    (c.prog = [SendStep.awaitLinked, SendStep.write (Envelope.to_recon message)] ∧ c.wire = []) ∨
    (c.prog = [SendStep.write (Envelope.to_recon message)] ∧ c.wire = [] ∧ c.linked = true) ∨
    (c.prog = [] ∧ c.wire = [Envelope.to_recon message] ∧ c.linked = true) := by
  induction h with
  | refl => exact Or.inl ⟨rfl, rfl⟩
  | tail hr hstep ih =>
    cases hstep with
    | set_linked l w p =>
      rcases ih with ⟨h1, h2⟩ | ⟨h1, h2, h3⟩ | ⟨h1, h2, h3⟩ <;> simp_all
    | exec_await w p =>
      rcases ih with ⟨h1, h2⟩ | ⟨h1, h2, h3⟩ | ⟨h1, h2, h3⟩ <;> simp_all
    | exec_write l w f p =>
      rcases ih with ⟨h1, h2⟩ | ⟨h1, h2, h3⟩ | ⟨h1, h2, h3⟩ <;> simp_all

/-- Claim C7: for both the value and the map downlink, an envelope passed to
`send_message` is never written to the connection before the `linked` event
is set: in every configuration reachable from starting the coroutine on an
empty wire — under any interleaving with the environment — if the frame has
been written then `linked` is set. -/
theorem claim_C7_no_write_before_linked (message : Envelope) (l0 : Bool)
    (c : SendConfig)
    (h : SendReach { linked := l0, wire := [], prog := ValueDownlinkModel.send_message message } c ∨
         SendReach { linked := l0, wire := [], prog := MapDownlinkModel.send_message message } c)
    (hw : c.wire ≠ []) : c.linked = true := by
  rcases h with h | h <;>
    rcases send_message_reachable_inv message l0 c h with
        ⟨h1, h2⟩ | ⟨h1, h2, h3⟩ | ⟨h1, h2, h3⟩ <;>
      first
        | exact absurd h2 hw
        | exact h3

/-- Claim C7 witness: a concrete maximal run — set `linked`, complete the
await, write the frame — reaches a configuration with a non-empty wire, and
the theorem yields `linked = true` there. -/
theorem claim_C7_no_write_before_linked_witness :
    SendReach sendInit0 sendFinal0 ∧ sendFinal0.wire ≠ [] ∧ sendFinal0.linked = true := by
  have hreach : SendReach sendInit0 sendFinal0 := by
    refine Relation.ReflTransGen.head (SendTrans.set_linked false [] _) ?_
    refine Relation.ReflTransGen.head (SendTrans.exec_await [] _) ?_
    exact Relation.ReflTransGen.single
      (SendTrans.exec_write true [] (Envelope.to_recon sendMsg0) [])
  refine ⟨hreach, by simp [sendFinal0], ?_⟩
  exact claim_C7_no_write_before_linked sendMsg0 false sendFinal0 (Or.inl hreach)
    (by simp [sendFinal0])

/-- Claim C8: on every downlink view on which `open()` has not been called,
`get`, `set`, `put` and `remove` all raise
`RuntimeError('Link is not open!')` and schedule nothing; on every open view
none of these calls raises that error. -/
theorem claim_C8_not_open_guard_on_view_calls (vv : ValueDownlinkViewState)
    (mv : MapDownlinkViewState) (key : Option PyObj) (k value : PyObj)
    (wait_sync blocking : Bool) :
    (vv.is_open = false →
      ValueDownlinkView.get vv wait_sync =
        Except.error (PyError.runtimeError "Link is not open!") ∧
      ValueDownlinkView.set vv value blocking =
        Except.error (PyError.runtimeError "Link is not open!")) ∧
    (mv.is_open = false →
      MapDownlinkView.get mv key wait_sync =
        Except.error (PyError.runtimeError "Link is not open!") ∧
      MapDownlinkView.put mv k value blocking =
        Except.error (PyError.runtimeError "Link is not open!") ∧
      MapDownlinkView.remove mv k blocking =
        Except.error (PyError.runtimeError "Link is not open!")) ∧
    (vv.is_open = true →
      ValueDownlinkView.get vv wait_sync ≠
        Except.error (PyError.runtimeError "Link is not open!") ∧
      ValueDownlinkView.set vv value blocking ≠
        Except.error (PyError.runtimeError "Link is not open!")) ∧
    (mv.is_open = true →
      MapDownlinkView.get mv key wait_sync ≠
        Except.error (PyError.runtimeError "Link is not open!") ∧
      MapDownlinkView.put mv k value blocking ≠
        Except.error (PyError.runtimeError "Link is not open!") ∧
      MapDownlinkView.remove mv k blocking ≠
        Except.error (PyError.runtimeError "Link is not open!")) := by
  cases wait_sync <;>
    refine ⟨fun h => ⟨?_, ?_⟩, fun h => ⟨?_, ?_, ?_⟩, fun h => ⟨?_, ?_⟩,
      fun h => ⟨?_, ?_, ?_⟩⟩ <;>
      simp [ValueDownlinkView.get, ValueDownlinkView.set, MapDownlinkView.get,
        MapDownlinkView.put, MapDownlinkView.remove, h]

/-- Claim C8 witness: the theorem applied at a concrete unopened view (the
calls raise the not-open error) and at a concrete open view (they do not). -/
theorem claim_C8_not_open_guard_on_view_calls_witness :
    ValueDownlinkView.get closedValueView false =
      Except.error (PyError.runtimeError "Link is not open!") ∧
    MapDownlinkView.put closedMapView (PyObj.str "k") (PyObj.str "v") false =
      Except.error (PyError.runtimeError "Link is not open!") ∧
    ValueDownlinkView.get openValueView false ≠
      Except.error (PyError.runtimeError "Link is not open!") ∧
    MapDownlinkView.remove openMapView (PyObj.str "k") false ≠
      Except.error (PyError.runtimeError "Link is not open!") := by
  have hc := claim_C8_not_open_guard_on_view_calls closedValueView closedMapView none
    (PyObj.str "k") (PyObj.str "v") false false
  have ho := claim_C8_not_open_guard_on_view_calls openValueView openMapView none
    (PyObj.str "k") (PyObj.str "v") false false
  exact ⟨(hc.1 rfl).1, (hc.2.1 rfl).2.1, (ho.2.2.1 rfl).1, (ho.2.2.2 rfl).2.2⟩
